import Mathlib

/-!
Verification of the session/conversation state manager and request-orchestration
protocol of the DAG_Streamlit repository (`src/app.py`), as a shallow embedding.

Modelling conventions:
* `st.session_state` is the record `SessionState`.  Python's pattern of
  per-key initialization in `init_session` is modelled by `RawState`, a record
  whose fields are `Option`s (a field is `none` when the corresponding key is
  absent from `st.session_state`).
* `uuid.uuid4()` is a fresh-identifier supply: identifiers are natural numbers
  drawn from a monotone counter `nextId` carried in the state, and the
  freshness guarantee of uuid4 (a newly drawn id differs from every id already
  held) is expressed by hypotheses of the form `session_id < nextId`.
* A remote HTTP call either returns a response (status code plus parsed JSON
  body) or raises a network exception: `HttpResult`.  JSON bodies are records
  with `Option` fields (`none` = key absent); Python `data.get(k)` is
  `Option.getD`, and `data[k]` on an absent key is a `KeyError`.
* `datetime.now().isoformat()` timestamps are inputs (parameters) of each
  operation.
* The turn handler (`main`, lines 149-204 of app.py) is `runTurn`.  It returns
  the final state, the uncaught exception if one escaped (`fault`), and the
  list of remote calls actually issued.  State mutations performed before an
  uncaught exception persist, exactly as Python in-place mutation of
  `st.session_state` does.
* Rendering calls (`st.chat_message`, `st.success`, `st.error`, `st.warning`,
  `st.code`, ...) have no effect on the session state and are not modelled;
  the distinction that matters is recorded where a claim needs it (whether a
  failure is surfaced by *appending a Message* or only by a transient notice).
-/

/-- One conversational turn, `{"message_type": ..., "content": ..., "timestamp": ...}`. -/
structure Message where
  message_type : String
  content : String
  timestamp : String
deriving DecidableEq

/-- One entry of the conversation list returned by GET `/conversations`:
`{"session_id": ..., "title": ...}` (`title` may be absent). -/
structure ConvSummary where
  session_id : Nat
  title : Option String
deriving DecidableEq

/-- The in-memory session state (`st.session_state`), fully initialized. -/
structure SessionState where
  session_id : Nat
  messages : List Message
  history : List ConvSummary
  active_session : Option Nat
  generated_dag : Option String
  nextId : Nat
deriving DecidableEq

/-- `st.session_state` before `init_session` has run: each key may be absent
(`none`).  `nextId` is the fresh-identifier supply. -/
structure RawState where
  session_id : Option Nat
  messages : Option (List Message)
  history : Option (List ConvSummary)
  active_session : Option (Option Nat)
  generated_dag : Option (Option String)
  nextId : Nat
deriving DecidableEq

/-- View of an initialized state as a raw state (every key present). -/
def SessionState.toRaw (s : SessionState) : RawState :=
  ⟨some s.session_id, some s.messages, some s.history,
   some s.active_session, some s.generated_dag, s.nextId⟩

/-- `init_session` (app.py lines 16-27): each key is set to its default only
if absent; a fresh `session_id` is drawn only when the key is absent. -/
def init_session (r : RawState) : SessionState :=
  { session_id := r.session_id.getD r.nextId
    messages := r.messages.getD []
    history := r.history.getD []
    active_session := r.active_session.getD none
    generated_dag := r.generated_dag.getD none
    nextId := if r.session_id.isSome then r.nextId else r.nextId + 1 }

/-- Result of one remote HTTP call: a response with status code and parsed
body, or a raised network exception. -/
inductive HttpResult (α : Type) where
  | ok (status : Nat) (body : α)
  | exn
deriving DecidableEq

/-- Parsed JSON body of POST `/validate_input`'s response. -/
structure ValidateBody where
  valid : Option Bool
  feedback : Option String
deriving DecidableEq

/-- Parsed JSON body of POST `/generate_dag`'s response. -/
structure GenerateBody where
  dag_script : Option String
deriving DecidableEq

/-- Parsed JSON body of GET `/conversations`'s response. -/
structure ConvListBody where
  success : Option Bool
  conversations : Option (List ConvSummary)
deriving DecidableEq

/-- Parsed JSON body of GET `/chat_history`'s response. -/
structure ChatHistoryBody where
  success : Option Bool
  messages : Option (List Message)
deriving DecidableEq

/-- The four remote endpoints of the backend contract. -/
inductive RemoteCall where
  | listConvs
  | chatHistory
  | validate
  | generate
deriving DecidableEq

/-- An uncaught Python exception escaping the orchestration logic. -/
inductive Fault where
  | networkExn (call : RemoteCall)
  | keyError (field : String)
deriving DecidableEq

/-- Character-list prefix test (`l₁` is a prefix of `l₂`). -/
def charStarts : List Char → List Char → Bool
  | [], _ => true
  | _ :: _, [] => false
  | a :: t₁, b :: t₂ => a == b && charStarts t₁ t₂

/-- Character-list substring test: does `needle` occur contiguously in `hay`? -/
def charSub (needle : List Char) : List Char → Bool
  | [] => charStarts needle []
  | c :: t => charStarts needle (c :: t) || charSub needle t

/-- Python's `"def " in content`: the generated-code marker heuristic. -/
def looksLikeCode (content : String) : Bool :=
  charSub "def ".toList content.toList

/-- The scan predicate of app.py line 59:
`msg["message_type"] == "system" and "def " in msg["content"]`. -/
def isArtifactMsg (m : Message) : Bool :=
  m.message_type == "system" && looksLikeCode m.content

/-- The artifact-extraction loop of `load_conversation` (app.py lines 57-61):
set `generated_dag` to `None`, then walk the messages newest-first and stop at
the first system message containing the marker. -/
def extractArtifact (msgs : List Message) : Option String :=
  (msgs.reverse.find? isArtifactMsg).map (·.content)

/-- Message construction, `{"message_type": ty, "content": c, "timestamp": ts}`. -/
def mkMsg (ty c ts : String) : Message := ⟨ty, c, ts⟩

/-- `fetch_all_conversations` (app.py lines 32-45).  The whole body is inside
`try/except`; every failure path only emits a transient notice
(`st.warning`/`st.error`), so the state is returned unchanged there.  A 200
response with `success` truthy but no `conversations` key raises a `KeyError`
that the `except` clause catches. -/
def fetch_all_conversations (s : SessionState) (resp : HttpResult ConvListBody) :
    SessionState :=
  match resp with
  | .exn => s
  | .ok status data =>
    if status = 200 then
      if data.success.getD false then
        match data.conversations with
        | some convs => { s with history := convs }
        | none => s
      else s
    else s

/-- `load_conversation` (app.py lines 47-67).  On a 200 response with
`success` truthy and a `messages` key, it replaces the message log, sets
`session_id` and `active_session` to the requested id, and recomputes the
artifact by the reverse scan; every other path (exception, non-200,
`success` falsy, missing `messages` key caught by `except`) leaves the state
unchanged, emitting only a transient notice. -/
def load_conversation (s : SessionState) (sid : Nat)
    (resp : HttpResult ChatHistoryBody) : SessionState :=
  match resp with
  | .exn => s
  | .ok status data =>
    if status = 200 then
      if data.success.getD false then
        match data.messages with
        | some msgs =>
          { s with messages := msgs
                   session_id := sid
                   active_session := some sid
                   generated_dag := extractArtifact msgs }
        | none => s
      else s
    else s

/-- The "Clear Current Chat" handler (app.py lines 123-128): empty the log,
clear the artifact and `active_session`, and draw a fresh `session_id`. -/
def clearChat (s : SessionState) : SessionState :=
  { s with messages := []
           generated_dag := none
           active_session := none
           session_id := s.nextId
           nextId := s.nextId + 1 }

/-- Python `data.get("feedback") or "Invalid input. Please try again."`
(app.py line 191): the fallback is used when the key is absent or the value
is falsy (the empty string). -/
def feedbackOrFallback (fb : Option String) : String :=
  match fb with
  | some f => if f = "" then "Invalid input. Please try again." else f
  | none => "Invalid input. Please try again."

/-- Outcome of one submitted turn: the state after the handler, the uncaught
exception if one escaped, and the remote calls issued. -/
structure TurnResult where
  state : SessionState
  fault : Option Fault
  calls : List RemoteCall
deriving DecidableEq

/-- The per-turn orchestration of `main` (app.py lines 149-204).  `input` is
the chat-input text (`if user_input:` makes an empty turn a no-op), `tsU` and
`tsS` the wall-clock timestamps at the two appends, `vResp` and `gResp` the
results of the validate and generate calls.  The two `requests.post` calls
are not wrapped in `try/except`, so a network exception there escapes with
the mutations already made (the appended user message) left in place; a 200
generation response without a `dag_script` key raises an uncaught `KeyError`
at line 173. -/
def runTurn (s : SessionState) (input tsU tsS : String)
    (vResp : HttpResult ValidateBody) (gResp : HttpResult GenerateBody) :
    TurnResult :=
  if input = "" then ⟨s, none, []⟩
  else
    let s1 := { s with messages := s.messages ++ [mkMsg "user" input tsU] }
    match vResp with
    | .exn => ⟨s1, some (.networkExn .validate), [.validate]⟩
    | .ok vStatus vData =>
      if vStatus = 200 then
        if vData.valid.getD false then
          match gResp with
          | .exn => ⟨s1, some (.networkExn .generate), [.validate, .generate]⟩
          | .ok gStatus gData =>
            if gStatus = 200 then
              match gData.dag_script with
              | none => ⟨s1, some (.keyError "dag_script"), [.validate, .generate]⟩
              | some script =>
                ⟨{ s1 with generated_dag := some script
                           messages := s1.messages ++ [mkMsg "system" script tsS] },
                 none, [.validate, .generate]⟩
            else
              ⟨{ s1 with messages :=
                   s1.messages ++ [mkMsg "system" "Failed to generate DAG script." tsS] },
               none, [.validate, .generate]⟩
        else
          ⟨{ s1 with messages :=
               s1.messages ++ [mkMsg "system" (feedbackOrFallback vData.feedback) tsS] },
           none, [.validate]⟩
      else
        ⟨{ s1 with messages :=
             s1.messages ++ [mkMsg "system" "Backend error while validating input." tsS] },
         none, [.validate]⟩

/-- A convenient concrete initial state: what `init_session` yields on a
completely fresh `st.session_state` whose supply starts at 0. -/
def s0 : SessionState := init_session ⟨none, none, none, none, none, 0⟩

example : s0 = ⟨0, [], [], none, none, 1⟩ := by decide

example : looksLikeCode "def etl(): ..." = true := by decide
example : looksLikeCode "hello" = false := by decide
example : extractArtifact [mkMsg "system" "def f(): pass" "t",
    mkMsg "user" "more" "t2"] = some "def f(): pass" := by decide

/-- Bool-level scan predicate, unfolded to its propositional form. -/
theorem isArtifactMsg_iff (m : Message) :
    isArtifactMsg m = true ↔
      m.message_type = "system" ∧ looksLikeCode m.content = true := by
  simp [isArtifactMsg]

/-- Negative form of `isArtifactMsg_iff`. -/
theorem isArtifactMsg_false_iff (m : Message) :
    isArtifactMsg m = false ↔
      ¬(m.message_type = "system" ∧ looksLikeCode m.content = true) := by
  rw [← isArtifactMsg_iff, Bool.not_eq_true]

/-- Counterexample to C1 as stated: a network exception on the validate call
is a validation transport error per the spec's taxonomy, yet on that branch
the turn appends the user message and zero system messages (the
`requests.post` at app.py line 159 sits outside any `try/except`), violating
the never-zero half of the exactly-two-per-turn invariant. -/
theorem turn_zero_system_messages_cx :
    (runTurn s0 "x" "t1" "t2" HttpResult.exn
        (HttpResult.ok 200 ⟨some "def g(): pass"⟩)).state.messages =
      s0.messages ++ [mkMsg "user" "x" "t1"] ∧
    (runTurn s0 "x" "t1" "t2" HttpResult.exn
        (HttpResult.ok 200 ⟨some "def g(): pass"⟩)).state.messages.filter
      (fun m => m.message_type == "system") = [] := by decide

/-- C1 amended: for every submitted non-empty user turn, exactly one user
Message is always appended; exactly one system Message is additionally
appended whenever no exception escapes the turn — i.e. in each of the four
branches validation non-2xx transport error, rejection, generation non-2xx
transport error, and successful generation — while a turn aborted by an
escaping exception appends the user Message and no system Message; never
more than one of each. -/
theorem turn_appends_per_branch
    (s : SessionState) (input tsU tsS : String)
    (vResp : HttpResult ValidateBody) (gResp : HttpResult GenerateBody)
    (hne : input ≠ "") :
    ((runTurn s input tsU tsS vResp gResp).fault = none →
      ∃ c, (runTurn s input tsU tsS vResp gResp).state.messages =
        s.messages ++ [mkMsg "user" input tsU, mkMsg "system" c tsS]) ∧
    ((runTurn s input tsU tsS vResp gResp).fault ≠ none →
      (runTurn s input tsU tsS vResp gResp).state.messages =
        s.messages ++ [mkMsg "user" input tsU]) := by
  simp only [runTurn, if_neg hne]
  cases vResp with
  | exn => exact ⟨fun h => Option.noConfusion h, fun h => rfl⟩
  | ok vStatus vData =>
    by_cases hv : vStatus = 200
    · subst hv
      simp only [if_pos rfl]
      by_cases hval : vData.valid.getD false = true
      · simp only [hval, if_pos rfl]
        cases gResp with
        | exn => exact ⟨fun h => Option.noConfusion h, fun h => rfl⟩
        | ok gStatus gData =>
          by_cases hg : gStatus = 200
          · subst hg
            simp only [if_pos rfl]
            cases hds : gData.dag_script with
            | none => exact ⟨fun h => Option.noConfusion h, fun h => rfl⟩
            | some script =>
              exact ⟨fun h => ⟨script, by simp⟩, fun h => absurd rfl h⟩
          · simp only [if_neg hg]
            exact ⟨fun h => ⟨"Failed to generate DAG script.", by simp⟩,
              fun h => absurd rfl h⟩
      · simp only [Bool.not_eq_true] at hval
        simp only [hval, Bool.false_eq_true, if_neg (by simp : ¬False)]
        exact ⟨fun h => ⟨feedbackOrFallback vData.feedback, by simp⟩,
          fun h => absurd rfl h⟩
    · simp only [if_neg hv]
      exact ⟨fun h => ⟨"Backend error while validating input.", by simp⟩,
        fun h => absurd rfl h⟩

/-- Witness for the amended C1 at a concrete turn. -/
theorem turn_appends_per_branch_witness :
    ((runTurn s0 "x" "t1" "t2" (HttpResult.ok 200 ⟨some true, none⟩)
        (HttpResult.ok 200 ⟨some "def f(): pass"⟩)).fault = none →
      ∃ c, (runTurn s0 "x" "t1" "t2" (HttpResult.ok 200 ⟨some true, none⟩)
          (HttpResult.ok 200 ⟨some "def f(): pass"⟩)).state.messages =
        s0.messages ++ [mkMsg "user" "x" "t1", mkMsg "system" c "t2"]) ∧
    ((runTurn s0 "x" "t1" "t2" (HttpResult.ok 200 ⟨some true, none⟩)
        (HttpResult.ok 200 ⟨some "def f(): pass"⟩)).fault ≠ none →
      (runTurn s0 "x" "t1" "t2" (HttpResult.ok 200 ⟨some true, none⟩)
          (HttpResult.ok 200 ⟨some "def f(): pass"⟩)).state.messages =
        s0.messages ++ [mkMsg "user" "x" "t1"]) :=
  turn_appends_per_branch s0 "x" "t1" "t2"
    (HttpResult.ok 200 ⟨some true, none⟩)
    (HttpResult.ok 200 ⟨some "def f(): pass"⟩) (by decide)

/-- C10: a 200 generation response whose body lacks the `dag_script` field
aborts the turn with an uncaught KeyError (app.py line 173): the fault
escapes, only the user message was appended (no system message for the
turn), and the artifact is unchanged — the exactly-two-per-turn guarantee
fails on this input. -/
theorem missing_dag_script_key_faults
    (s : SessionState) (input tsU tsS : String) (vData : ValidateBody)
    (gData : GenerateBody)
    (hne : input ≠ "") (hv : vData.valid.getD false = true)
    (hds : gData.dag_script = none) :
    (runTurn s input tsU tsS (HttpResult.ok 200 vData)
        (HttpResult.ok 200 gData)).fault = some (Fault.keyError "dag_script") ∧
    (runTurn s input tsU tsS (HttpResult.ok 200 vData)
        (HttpResult.ok 200 gData)).state.messages =
      s.messages ++ [mkMsg "user" input tsU] ∧
    (runTurn s input tsU tsS (HttpResult.ok 200 vData)
        (HttpResult.ok 200 gData)).state.generated_dag = s.generated_dag := by
  simp [runTurn, if_neg hne, hv, hds]

/-- Witness for C10 at a concrete turn. -/
theorem missing_dag_script_key_faults_witness :
    (runTurn s0 "x" "t1" "t2" (HttpResult.ok 200 ⟨some true, none⟩)
        (HttpResult.ok 200 ⟨none⟩)).fault = some (Fault.keyError "dag_script") ∧
    (runTurn s0 "x" "t1" "t2" (HttpResult.ok 200 ⟨some true, none⟩)
        (HttpResult.ok 200 ⟨none⟩)).state.messages =
      s0.messages ++ [mkMsg "user" "x" "t1"] ∧
    (runTurn s0 "x" "t1" "t2" (HttpResult.ok 200 ⟨some true, none⟩)
        (HttpResult.ok 200 ⟨none⟩)).state.generated_dag = s0.generated_dag :=
  missing_dag_script_key_faults s0 "x" "t1" "t2" ⟨some true, none⟩ ⟨none⟩
    (by decide) (by decide) rfl

/-- C6: on the REJECTED outcome (200 validation response with `valid` falsy)
the appended system message carries the server feedback when present and
non-empty, and the fixed fallback "Invalid input. Please try again." when the
feedback is absent or empty; the artifact is unchanged and the generate
endpoint is never called. -/
theorem rejected_feedback_or_fallback
    (s : SessionState) (input tsU tsS : String) (vData : ValidateBody)
    (gResp : HttpResult GenerateBody)
    (hne : input ≠ "") (hv : vData.valid.getD false = false) :
    (runTurn s input tsU tsS (HttpResult.ok 200 vData) gResp).fault = none ∧
    (runTurn s input tsU tsS (HttpResult.ok 200 vData) gResp).state.generated_dag =
      s.generated_dag ∧
    (runTurn s input tsU tsS (HttpResult.ok 200 vData) gResp).calls =
      [RemoteCall.validate] ∧
    (∀ f, vData.feedback = some f → f ≠ "" →
      (runTurn s input tsU tsS (HttpResult.ok 200 vData) gResp).state.messages =
        s.messages ++ [mkMsg "user" input tsU, mkMsg "system" f tsS]) ∧
    ((vData.feedback = none ∨ vData.feedback = some "") →
      (runTurn s input tsU tsS (HttpResult.ok 200 vData) gResp).state.messages =
        s.messages ++ [mkMsg "user" input tsU,
          mkMsg "system" "Invalid input. Please try again." tsS]) := by
  refine ⟨by simp [runTurn, if_neg hne, hv], by simp [runTurn, if_neg hne, hv],
    by simp [runTurn, if_neg hne, hv], ?_, ?_⟩
  · intro f hf hf0
    simp [runTurn, if_neg hne, hv, feedbackOrFallback, hf, if_neg hf0]
  · rintro (h | h) <;> simp [runTurn, if_neg hne, hv, feedbackOrFallback, h]

/-- Witness for C6 at a concrete turn with empty feedback. -/
theorem rejected_feedback_or_fallback_witness :
    (runTurn s0 "x" "t1" "t2" (HttpResult.ok 200 ⟨some false, some ""⟩)
      (HttpResult.ok 200 ⟨some "def f(): pass"⟩)).fault = none ∧
    (runTurn s0 "x" "t1" "t2" (HttpResult.ok 200 ⟨some false, some ""⟩)
      (HttpResult.ok 200 ⟨some "def f(): pass"⟩)).state.generated_dag =
      s0.generated_dag ∧
    (runTurn s0 "x" "t1" "t2" (HttpResult.ok 200 ⟨some false, some ""⟩)
      (HttpResult.ok 200 ⟨some "def f(): pass"⟩)).calls = [RemoteCall.validate] ∧
    (∀ f, (some "" : Option String) = some f → f ≠ "" →
      (runTurn s0 "x" "t1" "t2" (HttpResult.ok 200 ⟨some false, some ""⟩)
        (HttpResult.ok 200 ⟨some "def f(): pass"⟩)).state.messages =
        s0.messages ++ [mkMsg "user" "x" "t1", mkMsg "system" f "t2"]) ∧
    (((some "" : Option String) = none ∨ (some "" : Option String) = some "") →
      (runTurn s0 "x" "t1" "t2" (HttpResult.ok 200 ⟨some false, some ""⟩)
        (HttpResult.ok 200 ⟨some "def f(): pass"⟩)).state.messages =
        s0.messages ++ [mkMsg "user" "x" "t1",
          mkMsg "system" "Invalid input. Please try again." "t2"]) :=
  rejected_feedback_or_fallback s0 "x" "t1" "t2" ⟨some false, some ""⟩
    (HttpResult.ok 200 ⟨some "def f(): pass"⟩) (by decide) rfl

/-- C5: clearing the chat always yields a session id different from the one
held immediately before (under the uuid-freshness modelling
`session_id < nextId`), an empty message log, no artifact and no
`active_session`; freshness is preserved, and two consecutive clears yield
pairwise-distinct session ids. -/
theorem clear_fresh_id_and_empty (s : SessionState)
    (h : s.session_id < s.nextId) :
    (clearChat s).session_id ≠ s.session_id ∧
    (clearChat s).messages = [] ∧
    (clearChat s).generated_dag = none ∧
    (clearChat s).active_session = none ∧
    (clearChat s).session_id < (clearChat s).nextId ∧
    (clearChat (clearChat s)).messages = [] ∧
    (clearChat (clearChat s)).session_id ≠ (clearChat s).session_id ∧
    (clearChat (clearChat s)).session_id ≠ s.session_id := by
  refine ⟨?_, rfl, rfl, rfl, ?_, rfl, ?_, ?_⟩ <;> simp [clearChat] <;> omega

/-- Witness for C5 at the concrete fresh state. -/
theorem clear_fresh_id_and_empty_witness :
    (clearChat s0).session_id ≠ s0.session_id ∧
    (clearChat s0).messages = [] ∧
    (clearChat s0).generated_dag = none ∧
    (clearChat s0).active_session = none ∧
    (clearChat s0).session_id < (clearChat s0).nextId ∧
    (clearChat (clearChat s0)).messages = [] ∧
    (clearChat (clearChat s0)).session_id ≠ (clearChat s0).session_id ∧
    (clearChat (clearChat s0)).session_id ≠ s0.session_id :=
  clear_fresh_id_and_empty s0 (by decide)

/-- C8: when loading a conversation fails — network exception, non-200
response, or `success` falsy in the body — the whole session state is
returned unchanged (no partial overwrite). -/
theorem load_failure_leaves_state_unchanged
    (s : SessionState) (sid : Nat) (resp : HttpResult ChatHistoryBody)
    (hfail : resp = HttpResult.exn ∨
      ∃ status body, resp = HttpResult.ok status body ∧
        (status ≠ 200 ∨ body.success.getD false = false)) :
    load_conversation s sid resp = s := by
  rcases hfail with rfl | ⟨status, body, rfl, h | h⟩
  · rfl
  · simp [load_conversation, if_neg h]
  · by_cases hs : status = 200
    · subst hs
      simp [load_conversation, h]
    · simp [load_conversation, if_neg hs]

/-- Witness for C8 at a concrete failing load. -/
theorem load_failure_leaves_state_unchanged_witness :
    load_conversation s0 7 (HttpResult.ok 500 ⟨some true, some []⟩) = s0 :=
  load_failure_leaves_state_unchanged s0 7 (HttpResult.ok 500 ⟨some true, some []⟩)
    (Or.inr ⟨500, ⟨some true, some []⟩, rfl, Or.inl (by decide)⟩)

/-- C9: the replace-conversation update (the success path of
`load_conversation`, and in fact every path) is idempotent: applying it twice
with the same session id and the same response yields exactly the state of
applying it once. -/
theorem replace_conversation_idempotent
    (s : SessionState) (sid : Nat) (resp : HttpResult ChatHistoryBody) :
    load_conversation (load_conversation s sid resp) sid resp =
      load_conversation s sid resp := by
  cases resp with
  | exn => rfl
  | ok status data =>
    by_cases hs : status = 200
    · subst hs
      by_cases hsucc : data.success.getD false
      · cases hmsgs : data.messages with
        | none => simp [load_conversation, hsucc, hmsgs]
        | some msgs => simp [load_conversation, hsucc, hmsgs]
      · simp [load_conversation, hsucc]
    · simp [load_conversation, hs]

/-- Decomposition characterization of `List.find?`: it returns `a` exactly
when the list splits as `l₁ ++ a :: l₂` with `a` satisfying the predicate and
everything before it failing it. -/
theorem find?_decomp {α : Type} (p : α → Bool) (l : List α) (a : α) :
    l.find? p = some a ↔
      ∃ l₁ l₂, l = l₁ ++ a :: l₂ ∧ p a = true ∧ ∀ x ∈ l₁, p x = false := by
  induction l with
  | nil => simp
  | cons b t ih =>
    cases hb : p b with
    | true =>
      rw [List.find?_cons_of_pos _ hb]
      constructor
      · intro h
        injection h with h
        subst h
        exact ⟨[], t, rfl, hb, by simp⟩
      · rintro ⟨l₁, l₂, heq, hpa, hall⟩
        cases l₁ with
        | nil =>
          simp only [List.nil_append] at heq
          injection heq with h1 h2
          rw [h1]
        | cons c t₁ =>
          simp only [List.cons_append] at heq
          injection heq with h1 h2
          subst h1
          have h3 := hall b (List.mem_cons_self b t₁)
          rw [hb] at h3
          exact Bool.noConfusion h3
    | false =>
      rw [List.find?_cons_of_neg _ (by simp [hb])]
      rw [ih]
      constructor
      · rintro ⟨l₁, l₂, heq, hpa, hall⟩
        refine ⟨b :: l₁, l₂, by rw [heq, List.cons_append], hpa, ?_⟩
        intro x hx
        rcases List.mem_cons.mp hx with rfl | hx
        · exact hb
        · exact hall x hx
      · rintro ⟨l₁, l₂, heq, hpa, hall⟩
        cases l₁ with
        | nil =>
          simp only [List.nil_append] at heq
          injection heq with h1 h2
          subst h1
          rw [hpa] at hb
          exact Bool.noConfusion hb
        | cons c t₁ =>
          simp only [List.cons_append] at heq
          injection heq with h1 h2
          subst h1
          exact ⟨t₁, l₂, h2, hpa, fun x hx => hall x (List.mem_cons_of_mem _ hx)⟩

/-- The extraction scan finds nothing exactly when no message matches. -/
theorem extractArtifact_eq_none (msgs : List Message) :
    extractArtifact msgs = none ↔ ∀ m ∈ msgs, isArtifactMsg m = false := by
  simp only [extractArtifact, Option.map_eq_none']
  rw [List.find?_eq_none]
  constructor
  · intro h m hm
    simpa using h m (List.mem_reverse.mpr hm)
  · intro h m hm
    simpa using h m (List.mem_reverse.mp hm)

/-- The extraction scan returns `c` exactly when the log splits around a
matching message with content `c` after which no message matches. -/
theorem extractArtifact_eq_some (msgs : List Message) (c : String) :
    extractArtifact msgs = some c ↔
      ∃ pre m post, msgs = pre ++ m :: post ∧ isArtifactMsg m = true ∧
        m.content = c ∧ ∀ m' ∈ post, isArtifactMsg m' = false := by
  simp only [extractArtifact, Option.map_eq_some']
  constructor
  · rintro ⟨m, hfind, hc⟩
    rw [find?_decomp] at hfind
    rcases hfind with ⟨l₁, l₂, heq, hpm, hall⟩
    refine ⟨l₂.reverse, m, l₁.reverse, ?_, hpm, hc, ?_⟩
    · have h2 := congrArg List.reverse heq
      simpa [List.reverse_append] using h2
    · intro m' hm'
      exact hall m' (List.mem_reverse.mp hm')
  · rintro ⟨pre, m, post, heq, hpm, hc, hall⟩
    refine ⟨m, ?_, hc⟩
    rw [find?_decomp]
    refine ⟨post.reverse, pre.reverse, ?_, hpm, ?_⟩
    · rw [heq]
      simp [List.reverse_append]
    · intro x hx
      exact hall x (List.mem_reverse.mp hx)

/-- C3: for every ordered message sequence, the artifact extraction performed
on conversation load returns the content of the most recent message whose
`message_type` is "system" and whose content contains the substring "def "
(the matching message is followed only by non-matching messages), and returns
no artifact exactly when no such message exists. -/
theorem artifact_extraction_reverse_scan (msgs : List Message) :
    (extractArtifact msgs = none ↔
      ∀ m ∈ msgs, ¬(m.message_type = "system" ∧ looksLikeCode m.content = true)) ∧
    ∀ c, extractArtifact msgs = some c ↔
      ∃ pre m post, msgs = pre ++ m :: post ∧
        m.message_type = "system" ∧ looksLikeCode m.content = true ∧
        m.content = c ∧
        ∀ m' ∈ post, ¬(m'.message_type = "system" ∧ looksLikeCode m'.content = true) := by
  constructor
  · rw [extractArtifact_eq_none]
    simp only [isArtifactMsg_false_iff]
  · intro c
    rw [extractArtifact_eq_some]
    constructor
    · rintro ⟨pre, m, post, heq, hm, hc, hall⟩
      rcases (isArtifactMsg_iff m).mp hm with ⟨h1, h2⟩
      exact ⟨pre, m, post, heq, h1, h2, hc,
        fun m' hm' => (isArtifactMsg_false_iff m').mp (hall m' hm')⟩
    · rintro ⟨pre, m, post, heq, h1, h2, hc, hall⟩
      exact ⟨pre, m, post, heq, (isArtifactMsg_iff m).mpr ⟨h1, h2⟩, hc,
        fun m' hm' => (isArtifactMsg_false_iff m').mpr (hall m' hm')⟩

/-- The spec's invariant: whenever the artifact is present it is the content
of some system message currently in the log. -/
def ArtifactInv (s : SessionState) : Prop :=
  ∀ c, s.generated_dag = some c →
    ∃ m ∈ s.messages, m.message_type = "system" ∧ m.content = c

/-- The same invariant read on a possibly-uninitialized `st.session_state`
(an absent key counts as its default). -/
def RawArtifactInv (r : RawState) : Prop :=
  ∀ c, r.generated_dag = some (some c) →
    ∃ m ∈ r.messages.getD [], m.message_type = "system" ∧ m.content = c

/-- A successful extraction scan exhibits a system message of the log with
the extracted content. -/
theorem extractArtifact_mem (msgs : List Message) (c : String)
    (h : extractArtifact msgs = some c) :
    ∃ m ∈ msgs, m.message_type = "system" ∧ m.content = c := by
  simp only [extractArtifact, Option.map_eq_some'] at h
  rcases h with ⟨m, hfind, hc⟩
  refine ⟨m, List.mem_reverse.mp (List.mem_of_find?_eq_some hfind), ?_, hc⟩
  exact ((isArtifactMsg_iff m).mp (List.find?_some hfind)).1

/-- Appending messages preserves the artifact invariant. -/
theorem ArtifactInv_append (s : SessionState) (extra : List Message)
    (h : ArtifactInv s) :
    ArtifactInv { s with messages := s.messages ++ extra } := by
  intro c hc
  rcases h c hc with ⟨m, hm, h1, h2⟩
  exact ⟨m, List.mem_append_left _ hm, h1, h2⟩

/-- C7: every operation of the core — `init_session`, clearing the chat,
loading a conversation (any response), refreshing the conversation list (any
response), and every branch of a submitted turn (any responses, including the
faulting ones) — preserves the invariant that a present artifact is the
content of some system message in the current log. -/
theorem artifact_invariant_preserved
    (r : RawState) (s : SessionState)
    (hr : RawArtifactInv r) (hs : ArtifactInv s) :
    ArtifactInv (init_session r) ∧
    ArtifactInv (clearChat s) ∧
    (∀ sid resp, ArtifactInv (load_conversation s sid resp)) ∧
    (∀ resp, ArtifactInv (fetch_all_conversations s resp)) ∧
    (∀ input tsU tsS vResp gResp,
      ArtifactInv (runTurn s input tsU tsS vResp gResp).state) := by
  refine ⟨?_, ?_, ?_, ?_, ?_⟩
  · intro c hc
    cases h : r.generated_dag with
    | none => simp [init_session, h] at hc
    | some o =>
      simp [init_session, h] at hc
      rcases hr c (by rw [h, hc]) with ⟨m, hm, h1, h2⟩
      exact ⟨m, hm, h1, h2⟩
  · intro c hc
    simp [clearChat] at hc
  · intro sid resp
    cases resp with
    | exn => exact hs
    | ok status data =>
      by_cases hst : status = 200
      · subst hst
        by_cases hsucc : data.success.getD false = true
        · cases hmsgs : data.messages with
          | none => simpa [load_conversation, hsucc, hmsgs] using hs
          | some msgs =>
            simp only [load_conversation, hsucc, hmsgs, if_pos rfl]
            intro c hc
            exact extractArtifact_mem msgs c hc
        · simpa [load_conversation, hsucc] using hs
      · simpa [load_conversation, hst] using hs
  · intro resp
    cases resp with
    | exn => exact hs
    | ok status data =>
      by_cases hst : status = 200
      · subst hst
        by_cases hsucc : data.success.getD false = true
        · cases hconvs : data.conversations with
          | none => simpa [fetch_all_conversations, hsucc, hconvs] using hs
          | some convs =>
            simp only [fetch_all_conversations, hsucc, hconvs, if_pos rfl]
            intro c hc
            rcases hs c hc with ⟨m, hm, h1, h2⟩
            exact ⟨m, hm, h1, h2⟩
        · simpa [fetch_all_conversations, hsucc] using hs
      · simpa [fetch_all_conversations, hst] using hs
  · intro input tsU tsS vResp gResp
    by_cases hne : input = ""
    · simpa [runTurn, hne] using hs
    · have hs1 : ArtifactInv
          { s with messages := s.messages ++ [mkMsg "user" input tsU] } :=
        ArtifactInv_append s _ hs
      simp only [runTurn, if_neg hne]
      cases vResp with
      | exn => exact hs1
      | ok vStatus vData =>
        by_cases hv : vStatus = 200
        · subst hv
          simp only [if_pos rfl]
          by_cases hval : vData.valid.getD false = true
          · simp only [hval, if_pos rfl]
            cases gResp with
            | exn => exact hs1
            | ok gStatus gData =>
              by_cases hg : gStatus = 200
              · subst hg
                simp only [if_pos rfl]
                cases hds : gData.dag_script with
                | none => exact hs1
                | some script =>
                  intro c hc
                  simp only at hc
                  have hc' : script = c := by simpa using hc
                  refine ⟨mkMsg "system" script tsS, ?_, rfl, hc'⟩
                  simp [List.mem_append]
              · simp only [if_neg hg]
                exact ArtifactInv_append _ _ hs1
          · simp only [hval, Bool.false_eq_true, if_neg (by simp : ¬False)]
            exact ArtifactInv_append _ _ hs1
        · simp only [if_neg hv]
          exact ArtifactInv_append _ _ hs1

/-- Witness for C7: the hypotheses hold at the fresh raw state and at `s0`,
and the conclusion is obtained by applying the preservation theorem there. -/
theorem artifact_invariant_preserved_witness :
    RawArtifactInv ⟨none, none, none, none, none, 0⟩ ∧
    ArtifactInv s0 ∧
    (ArtifactInv (init_session ⟨none, none, none, none, none, 0⟩) ∧
     ArtifactInv (clearChat s0) ∧
     (∀ sid resp, ArtifactInv (load_conversation s0 sid resp)) ∧
     (∀ resp, ArtifactInv (fetch_all_conversations s0 resp)) ∧
     (∀ input tsU tsS vResp gResp,
       ArtifactInv (runTurn s0 input tsU tsS vResp gResp).state)) := by
  have h1 : RawArtifactInv ⟨none, none, none, none, none, 0⟩ := by
    intro c hc
    exact absurd hc (by simp)
  have h2 : ArtifactInv s0 := by
    intro c hc
    exact absurd hc (by simp [s0, init_session])
  exact ⟨h1, h2, artifact_invariant_preserved _ s0 h1 h2⟩

/-- Counterexample to C2 as stated: a network exception on the validate call
is not caught — it escapes the turn handler as an uncaught fault instead of
being converted into an appended system Message (the two `requests.post`
calls in `main` are outside any `try/except`). -/
theorem validate_exception_escapes_cx :
    (runTurn s0 "x" "t1" "t2" HttpResult.exn
      (HttpResult.ok 200 ⟨some "def f(): pass"⟩)).fault ≠ none := by decide

/-- C2 amended: non-2xx responses on the validate and generate calls are
caught and converted into an appended human-readable system Message without
any fault; network exceptions on those two calls escape the turn handler as
uncaught faults (after the user message was appended); on the two
conversation-store calls, every failure — including a network exception — is
caught, leaving the state unchanged and appending no Message (the list call
never appends a Message on any outcome). -/
theorem remote_failure_handling
    (s : SessionState) (sid : Nat) (input tsU tsS : String)
    (vStatus gStatus : Nat) (vData : ValidateBody) (gData : GenerateBody)
    (gResp : HttpResult GenerateBody)
    (hne : input ≠ "") :
    (vStatus ≠ 200 →
      (runTurn s input tsU tsS (HttpResult.ok vStatus vData) gResp).fault = none ∧
      (runTurn s input tsU tsS (HttpResult.ok vStatus vData) gResp).state.messages =
        s.messages ++ [mkMsg "user" input tsU,
          mkMsg "system" "Backend error while validating input." tsS]) ∧
    (vData.valid.getD false = true → gStatus ≠ 200 →
      (runTurn s input tsU tsS (HttpResult.ok 200 vData)
          (HttpResult.ok gStatus gData)).fault = none ∧
      (runTurn s input tsU tsS (HttpResult.ok 200 vData)
          (HttpResult.ok gStatus gData)).state.messages =
        s.messages ++ [mkMsg "user" input tsU,
          mkMsg "system" "Failed to generate DAG script." tsS]) ∧
    ((runTurn s input tsU tsS HttpResult.exn gResp).fault =
      some (Fault.networkExn RemoteCall.validate) ∧
     (runTurn s input tsU tsS HttpResult.exn gResp).state.messages =
       s.messages ++ [mkMsg "user" input tsU]) ∧
    (vData.valid.getD false = true →
      (runTurn s input tsU tsS (HttpResult.ok 200 vData) HttpResult.exn).fault =
        some (Fault.networkExn RemoteCall.generate)) ∧
    load_conversation s sid HttpResult.exn = s ∧
    fetch_all_conversations s HttpResult.exn = s ∧
    (∀ resp, (fetch_all_conversations s resp).messages = s.messages) := by
  refine ⟨?_, ?_, ?_, ?_, rfl, rfl, ?_⟩
  · intro hv
    constructor <;> simp [runTurn, if_neg hne, if_neg hv]
  · intro hval hg
    constructor <;> simp [runTurn, if_neg hne, hval, if_neg hg]
  · constructor <;> simp [runTurn, if_neg hne]
  · intro hval
    simp [runTurn, if_neg hne, hval]
  · intro resp
    cases resp with
    | exn => rfl
    | ok status data =>
      by_cases hst : status = 200
      · subst hst
        by_cases hsucc : data.success.getD false = true
        · cases hconvs : data.conversations with
          | none => simp [fetch_all_conversations, hsucc, hconvs]
          | some convs => simp [fetch_all_conversations, hsucc, hconvs]
        · simp [fetch_all_conversations, hsucc]
      · simp [fetch_all_conversations, hst]

/-- Witness for the amended C2 at concrete inputs. -/
theorem remote_failure_handling_witness :
    ((500 : Nat) ≠ 200 →
      (runTurn s0 "x" "t1" "t2" (HttpResult.ok 500 ⟨some true, none⟩)
          (HttpResult.ok 200 ⟨some "def f(): pass"⟩)).fault = none ∧
      (runTurn s0 "x" "t1" "t2" (HttpResult.ok 500 ⟨some true, none⟩)
          (HttpResult.ok 200 ⟨some "def f(): pass"⟩)).state.messages =
        s0.messages ++ [mkMsg "user" "x" "t1",
          mkMsg "system" "Backend error while validating input." "t2"]) ∧
    ((⟨some true, none⟩ : ValidateBody).valid.getD false = true → (503 : Nat) ≠ 200 →
      (runTurn s0 "x" "t1" "t2" (HttpResult.ok 200 ⟨some true, none⟩)
          (HttpResult.ok 503 ⟨some "def f(): pass"⟩)).fault = none ∧
      (runTurn s0 "x" "t1" "t2" (HttpResult.ok 200 ⟨some true, none⟩)
          (HttpResult.ok 503 ⟨some "def f(): pass"⟩)).state.messages =
        s0.messages ++ [mkMsg "user" "x" "t1",
          mkMsg "system" "Failed to generate DAG script." "t2"]) ∧
    ((runTurn s0 "x" "t1" "t2" HttpResult.exn
        (HttpResult.ok 200 ⟨some "def f(): pass"⟩)).fault =
      some (Fault.networkExn RemoteCall.validate) ∧
     (runTurn s0 "x" "t1" "t2" HttpResult.exn
        (HttpResult.ok 200 ⟨some "def f(): pass"⟩)).state.messages =
       s0.messages ++ [mkMsg "user" "x" "t1"]) ∧
    ((⟨some true, none⟩ : ValidateBody).valid.getD false = true →
      (runTurn s0 "x" "t1" "t2" (HttpResult.ok 200 ⟨some true, none⟩)
          HttpResult.exn).fault = some (Fault.networkExn RemoteCall.generate)) ∧
    load_conversation s0 9 HttpResult.exn = s0 ∧
    fetch_all_conversations s0 HttpResult.exn = s0 ∧
    (∀ resp, (fetch_all_conversations s0 resp).messages = s0.messages) :=
  remote_failure_handling s0 9 "x" "t1" "t2" 500 503 ⟨some true, none⟩
    ⟨some "def f(): pass"⟩ (HttpResult.ok 200 ⟨some "def f(): pass"⟩) (by decide)

/-- Counterexample to C4 as stated: when the returned script does not contain
the marker "def ", the incrementally-set artifact disagrees with what the
reverse scan of the updated log would return ("hello" is stored as the
artifact, but the rescan finds no qualifying system message). -/
theorem generated_artifact_rescan_mismatch_cx :
    (runTurn s0 "x" "t1" "t2" (HttpResult.ok 200 ⟨some true, none⟩)
      (HttpResult.ok 200 ⟨some "hello"⟩)).state.generated_dag = some "hello" ∧
    extractArtifact (runTurn s0 "x" "t1" "t2" (HttpResult.ok 200 ⟨some true, none⟩)
      (HttpResult.ok 200 ⟨some "hello"⟩)).state.messages ≠ some "hello" := by decide

/-- C4 amended: on the GENERATED outcome the appended system message's
content is exactly the returned script, the artifact is set to that same
text, and — whenever the script contains the marker "def " — the artifact
coincides with what the reverse scan of the updated log returns. -/
theorem generated_branch_artifact
    (s : SessionState) (input tsU tsS : String) (vData : ValidateBody)
    (script : String)
    (hne : input ≠ "") (hv : vData.valid.getD false = true) :
    (runTurn s input tsU tsS (HttpResult.ok 200 vData)
        (HttpResult.ok 200 ⟨some script⟩)).fault = none ∧
    (runTurn s input tsU tsS (HttpResult.ok 200 vData)
        (HttpResult.ok 200 ⟨some script⟩)).state.messages =
      s.messages ++ [mkMsg "user" input tsU, mkMsg "system" script tsS] ∧
    (runTurn s input tsU tsS (HttpResult.ok 200 vData)
        (HttpResult.ok 200 ⟨some script⟩)).state.generated_dag = some script ∧
    (looksLikeCode script = true →
      extractArtifact (runTurn s input tsU tsS (HttpResult.ok 200 vData)
        (HttpResult.ok 200 ⟨some script⟩)).state.messages = some script) := by
  refine ⟨by simp [runTurn, if_neg hne, hv], by simp [runTurn, if_neg hne, hv],
    by simp [runTurn, if_neg hne, hv], ?_⟩
  intro hscript
  have hart : isArtifactMsg (mkMsg "system" script tsS) = true := by
    simp [isArtifactMsg, mkMsg, hscript]
  simp only [runTurn, if_neg hne, hv, if_pos rfl, if_true, eq_self_iff_true,
    extractArtifact, List.reverse_append, List.reverse_cons, List.reverse_nil,
    List.nil_append, List.cons_append, List.singleton_append]
  rw [List.find?_cons_of_pos _ hart]
  rfl

/-- Witness for the amended C4 with a marker-carrying script. -/
theorem generated_branch_artifact_witness :
    (runTurn s0 "x" "t1" "t2" (HttpResult.ok 200 ⟨some true, none⟩)
        (HttpResult.ok 200 ⟨some "def f(): pass"⟩)).fault = none ∧
    (runTurn s0 "x" "t1" "t2" (HttpResult.ok 200 ⟨some true, none⟩)
        (HttpResult.ok 200 ⟨some "def f(): pass"⟩)).state.messages =
      s0.messages ++ [mkMsg "user" "x" "t1",
        mkMsg "system" "def f(): pass" "t2"] ∧
    (runTurn s0 "x" "t1" "t2" (HttpResult.ok 200 ⟨some true, none⟩)
        (HttpResult.ok 200 ⟨some "def f(): pass"⟩)).state.generated_dag =
      some "def f(): pass" ∧
    (looksLikeCode "def f(): pass" = true →
      extractArtifact (runTurn s0 "x" "t1" "t2" (HttpResult.ok 200 ⟨some true, none⟩)
        (HttpResult.ok 200 ⟨some "def f(): pass"⟩)).state.messages =
      some "def f(): pass") :=
  generated_branch_artifact s0 "x" "t1" "t2" ⟨some true, none⟩ "def f(): pass"
    (by decide) rfl
